import Mathlib

/-!
Verification of the ncdns server startup/lifecycle layer
(`server/server.go` of tito-arch/ncdns).

The Go code is shallowly embedded: pure normalization loops become Lean
functions; the effectful construction path (`New`, `Server.loadKey`) is
modelled as a function of an `Env` record giving the outcome of every
external-collaborator call (file opens, record parsing, address
resolution, socket binds, backend/engine construction, web frontend),
together with an explicit list of `Action`s recording the externally
visible operations performed (files opened, paths handed to the cookie
retriever, addresses resolved, sockets bound).  `log.Fatale(err)` with a
non-nil error terminates the process; this is modelled by the `fatal`
constructor of `Outcome`, distinct from an error returned to the caller
(`err`).  The concurrent `Start` path is modelled as a labelled
transition system over a `StartState` mirroring the `sync.WaitGroup`
readiness barrier.
-/

namespace Ncdns

/-- Error values: Go `error`s are modelled by their message strings. -/
abbrev Err := String

/-- A parsed IP address (`net.IP`); opaque to this layer, so represented by
its textual form.  Parsing is delegated to the collaborator `net.ParseIP`,
an `Env` field. -/
structure IP where
  repr : String
deriving DecidableEq

/-- A DNSKEY resource record (`dns.DNSKEY` of miekg/dns); this layer only
inspects its presence, so the record is reduced to its algorithm number. -/
structure DNSKEY where
  algorithm : Nat
deriving DecidableEq

/-- A DNS resource record as returned by `dns.ReadRR`: either a DNSKEY or
some other record type (the type assertion `rr.(*dns.DNSKEY)` in
`loadKey` distinguishes exactly these two cases). -/
inductive RR where
  | dnskey (k : DNSKEY)
  | other
deriving DecidableEq

/-- The `Config` struct (server.go lines 36-63).  `canonicalNameservers`
and `vanityIPs` are the unexported normalized fields; callers outside the
package cannot set them, so they hold their zero values (`[]`) on entry
to `New`. -/
structure Config where
  Bind : String
  PublicKey : String
  PrivateKey : String
  ZonePublicKey : String
  ZonePrivateKey : String
  NamecoinRPCUsername : String
  NamecoinRPCPassword : String
  NamecoinRPCAddress : String
  NamecoinRPCCookiePath : String
  CacheMaxEntries : Int
  SelfName : String
  SelfIP : String
  HTTPListenAddr : String
  CanonicalSuffix : String
  CanonicalNameservers : String
  canonicalNameservers : List String
  Hostmaster : String
  VanityIPs : String
  vanityIPs : List IP
  TplSet : String
  TplPath : String
  ConfigDir : String
deriving DecidableEq

/-- Model of the collaborator `filepath.Join(dir, name)` from the Go
standard library: prepend the directory.  The library additionally runs
`filepath.Clean` on the result; cleaning is irrelevant here, since every
property below depends only on whether the base directory is prepended,
so it is omitted. -/
def filepathJoin (dir name : String) : String :=
  if dir = "" then name else if name = "" then dir else dir ++ "/" ++ name

/-- `Config.cpath` (server.go lines 65-67): resolve a file name against
the configuration base directory `ConfigDir`. -/
def Config.cpath (cfg : Config) (s : String) : String :=
  filepathJoin cfg.ConfigDir s

/-- Outcome of a fallible step of construction: a value, an error
returned to the caller, or process termination via `log.Fatale` on a
non-nil error. -/
inductive Outcome (α : Type) where
  | ok (a : α)
  | err (e : Err)
  | fatal (e : Err)
deriving DecidableEq

/-- Externally visible operations performed during construction.
`sockClose` is in the vocabulary for completeness: `New` contains no
`Close` call, so the model never emits it, meaning every socket opened
during construction is still open when `New` returns. -/
inductive Action where
  | cookieHand (path : String)
  | fileOpen (path : String)
  | resolveTCP (addr : String)
  | sockOpenTCP
  | resolveUDP (addr : String)
  | sockOpenUDP
  | sockClose
  | webStartCall (addr : String)
deriving DecidableEq

/-- Outcomes of every external-collaborator call made during
construction, keyed by argument where the call site passes one.  This is
the oracle against which `New` and `loadKey` are interpreted. -/
structure Env where
  parseIP : String → Option IP
  backendNew : Except Err Unit
  openFile : String → Except Err Unit
  readRR : String → Except Err RR
  readPrivateKey : String → Except Err Unit
  engineNew : Except Err Unit
  resolveTCPAddr : String → Except Err Unit
  listenTCP : Except Err Unit
  resolveUDPAddr : String → Except Err Unit
  listenUDP : Except Err Unit
  webStart : String → Except Err Unit

/-- Split a character list at every comma, keeping empty segments;
total-function core of `splitComma`. -/
def splitCommaChars : List Char → List (List Char)
  | [] => [[]]
  | c :: cs =>
    if c = ',' then [] :: splitCommaChars cs
    else
      match splitCommaChars cs with
      | [] => [[c]]
      | t :: ts => (c :: t) :: ts

/-- Model of `strings.Split(s, ",")`: split on every comma, keeping empty
segments; the empty string yields `[""]`, exactly as in Go. -/
def splitComma (s : String) : List String :=
  (splitCommaChars s.data).map String.mk

/-- Whether a string ends in a dot. -/
def hasTrailingDot (s : String) : Bool :=
  s.data.getLast? = some '.'

/-- Model of the collaborator `dns.Fqdn` (miekg/dns): append a trailing
dot unless one is already present.  (The library's special handling of an
escaped final dot is immaterial here and not modelled.) -/
def fqdn (s : String) : String :=
  if hasTrailingDot s then s else s ++ "."

/-- Canonical-nameserver normalization (server.go lines 87-92): when the
raw string is non-empty, split on commas and fully qualify each entry;
otherwise leave the normalized field at its prior value `init`. -/
def normCanonical (raw : String) (init : List String) : List String :=
  if raw ≠ "" then (splitComma raw).map fqdn else init

/-- The loop body of vanity-IP normalization (server.go lines 96-102):
parse each entry, appending to the accumulator, failing on the first
entry the parser rejects with the error message built by
`fmt.Errorf("Couldn't parse IP: %s", ips)`. -/
def vanityLoop (parse : String → Option IP) : List String → List IP → Except Err (List IP)
  | [], acc => .ok acc
  | t :: ts, acc =>
    match parse t with
    | none => .error ("Couldn\x27t parse IP: " ++ t)
    | some ip => vanityLoop parse ts (acc ++ [ip])

/-- Vanity-IP normalization (server.go lines 94-103): when the raw string
is non-empty, split on commas and run the parse loop starting from the
prior value `init` of the normalized field; otherwise leave it unchanged. -/
def parseVanity (parse : String → Option IP) (raw : String) (init : List IP) : Except Err (List IP) :=
  if raw ≠ "" then vanityLoop parse (splitComma raw) init else .ok init

/-- `Server.loadKey` (server.go lines 179-208): resolve both paths with
`cpath`; open and parse the public-key file, failing with a returned
error if the open fails, the record does not parse, or it is not a
DNSKEY; open the private-key file, failing with a returned error if the
open fails; then parse the private key, where a parse error is passed to
`log.Fatale` and terminates the process (`Outcome.fatal`) instead of
being returned. -/
def loadKey (env : Env) (cfg : Config) (fn0 privateFn0 : String) :
    List Action × Outcome DNSKEY :=
  let fn := cfg.cpath fn0
  let privateFn := cfg.cpath privateFn0
  match env.openFile fn with
  | .error e => ([Action.fileOpen fn], .err e)
  | .ok _ =>
    match env.readRR fn with
    | .error e => ([Action.fileOpen fn], .err e)
    | .ok RR.other =>
        ([Action.fileOpen fn], .err "Loaded record from key file, but it wasn\x27t a DNSKEY")
    | .ok (RR.dnskey k) =>
      match env.openFile privateFn with
      | .error e => ([Action.fileOpen fn, Action.fileOpen privateFn], .err e)
      | .ok _ =>
        match env.readPrivateKey privateFn with
        | .error e => ([Action.fileOpen fn, Action.fileOpen privateFn], .fatal e)
        | .ok _ => ([Action.fileOpen fn, Action.fileOpen privateFn], .ok k)

/-- The guarded key-loading pattern of `New` (server.go lines 123-128 and
130-135): when the public-key path is empty the whole load is skipped and
the key is absent; otherwise delegate to `loadKey`. -/
def loadOptKey (env : Env) (cfg : Config) (pubFn privFn : String) :
    List Action × Outcome (Option DNSKEY) :=
  if pubFn = "" then ([], .ok none)
  else
    match loadKey env cfg pubFn privFn with
    | (as, .ok k) => (as, .ok (some k))
    | (as, .err e) => (as, .err e)
    | (as, .fatal e) => (as, .fatal e)

/-- The constructed server (`Server`), restricted to the state the
properties below observe: the normalized configuration snapshot, the
naming-service connection fields, and the loaded key pairs handed to the
resolution engine. -/
structure ServerModel where
  cfg : Config
  namecoinUser : String
  namecoinPass : String
  namecoinServer : String
  cookiePath : String
  ksk : Option DNSKEY
  zsk : Option DNSKEY
deriving DecidableEq

/-- `New` (server.go lines 71-177), interpreted against `env`.  In source
order: copy the configuration; install the cookie retriever when a cookie
path is configured (handing it the configured path); normalize the
canonical-nameserver list; normalize the vanity-IP list, returning its
error on failure; construct the backend; load the KSK pair then the ZSK
pair through the guarded loads; fail if a KSK is present without a ZSK;
construct the engine; resolve and bind the TCP address, then the UDP
address, returning the first error; start the web frontend when an HTTP
listen address is configured.  No step ever closes a previously opened
socket (`New` contains no `Close` call). -/
def newModel (env : Env) (cfg : Config) : List Action × Outcome ServerModel :=
  let acts0 : List Action :=
    if cfg.NamecoinRPCCookiePath ≠ "" then [Action.cookieHand cfg.NamecoinRPCCookiePath] else []
  match parseVanity env.parseIP cfg.VanityIPs cfg.vanityIPs with
  | .error e => (acts0, .err e)
  | .ok vips =>
    let scfg : Config :=
      { cfg with
        canonicalNameservers := normCanonical cfg.CanonicalNameservers cfg.canonicalNameservers,
        vanityIPs := vips }
    match env.backendNew with
    | .error e => (acts0, .err e)
    | .ok _ =>
      match loadOptKey env scfg cfg.PublicKey cfg.PrivateKey with
      | (kacts, .err e) => (acts0 ++ kacts, .err e)
      | (kacts, .fatal e) => (acts0 ++ kacts, .fatal e)
      | (kacts, .ok ksk) =>
        match loadOptKey env scfg cfg.ZonePublicKey cfg.ZonePrivateKey with
        | (zacts, .err e) => (acts0 ++ kacts ++ zacts, .err e)
        | (zacts, .fatal e) => (acts0 ++ kacts ++ zacts, .fatal e)
        | (zacts, .ok zsk) =>
          let acts1 := acts0 ++ kacts ++ zacts
          if ksk ≠ none ∧ zsk = none then
            (acts1, .err "Must specify ZSK if KSK is specified")
          else
            match env.engineNew with
            | .error e => (acts1, .err e)
            | .ok _ =>
              match env.resolveTCPAddr cfg.Bind with
              | .error e => (acts1 ++ [Action.resolveTCP cfg.Bind], .err e)
              | .ok _ =>
                match env.listenTCP with
                | .error e => (acts1 ++ [Action.resolveTCP cfg.Bind], .err e)
                | .ok _ =>
                  let acts2 := acts1 ++ [Action.resolveTCP cfg.Bind, Action.sockOpenTCP]
                  match env.resolveUDPAddr cfg.Bind with
                  | .error e => (acts2 ++ [Action.resolveUDP cfg.Bind], .err e)
                  | .ok _ =>
                    match env.listenUDP with
                    | .error e => (acts2 ++ [Action.resolveUDP cfg.Bind], .err e)
                    | .ok _ =>
                      let acts3 := acts2 ++ [Action.resolveUDP cfg.Bind, Action.sockOpenUDP]
                      let srv : ServerModel :=
                        { cfg := scfg
                          namecoinUser := cfg.NamecoinRPCUsername
                          namecoinPass := cfg.NamecoinRPCPassword
                          namecoinServer := cfg.NamecoinRPCAddress
                          cookiePath := cfg.NamecoinRPCCookiePath
                          ksk := ksk
                          zsk := zsk }
                      if cfg.HTTPListenAddr ≠ "" then
                        match env.webStart cfg.HTTPListenAddr with
                        | .error e => (acts3 ++ [Action.webStartCall cfg.HTTPListenAddr], .err e)
                        | .ok _ => (acts3 ++ [Action.webStartCall cfg.HTTPListenAddr], .ok srv)
                      else (acts3, .ok srv)

/-- Whether an action binds a socket. -/
def isSockOpen : Action → Bool
  | Action.sockOpenTCP => true
  | Action.sockOpenUDP => true
  | _ => false

/-- The sockets still open when construction returns: the sockets bound
during it, since `New` never emits `sockClose` (the source contains no
`Close` call on any path). -/
def openSockets (acts : List Action) : List Action :=
  acts.filter isSockOpen

/-- Whether an action touches the network: resolving a bind address or
binding a socket. -/
def netAction : Action → Bool
  | Action.resolveTCP _ => true
  | Action.sockOpenTCP => true
  | Action.resolveUDP _ => true
  | Action.sockOpenUDP => true
  | _ => false

/-- Whether an action opens a file. -/
def isFileOpen : Action → Bool
  | Action.fileOpen _ => true
  | _ => false

/-- Which argument each kind of action can carry when emitted by `New` on
configuration `cfg`: the cookie retriever receives the configured cookie
path as-is, file opens name one of the four `cpath`-resolved key files,
address resolutions and the web frontend receive the configured
addresses, and no socket is ever closed. -/
def actFor (cfg : Config) : Action → Prop
  | Action.cookieHand p => p = cfg.NamecoinRPCCookiePath
  | Action.fileOpen p => p = cfg.cpath cfg.PublicKey ∨ p = cfg.cpath cfg.PrivateKey ∨
      p = cfg.cpath cfg.ZonePublicKey ∨ p = cfg.cpath cfg.ZonePrivateKey
  | Action.resolveTCP addr => addr = cfg.Bind
  | Action.sockOpenTCP => True
  | Action.resolveUDP addr => addr = cfg.Bind
  | Action.sockOpenUDP => True
  | Action.sockClose => False
  | Action.webStartCall addr => addr = cfg.HTTPListenAddr

/-- State of a `Start` invocation (server.go lines 210-244): the
`wgStart` counter after `Add(2)`, whether each transport has been
confirmed actively accepting by the dns library (the precondition for
`NotifyStartedFunc`), whether each serve loop has run its
`NotifyStartedFunc` (i.e. called `wgStart.Done()`), whether `log.Fatale`
has terminated the process from a serve loop, and the value returned by
`Start` once `wgStart.Wait()` unblocks (`none` while still blocked). -/
structure StartState where
  counter : Nat
  udpStarted : Bool
  udpSignaled : Bool
  tcpStarted : Bool
  tcpSignaled : Bool
  dead : Bool
  ret : Option (Option Err)
deriving DecidableEq

/-- The state on entry to `Start`, right after `s.wgStart.Add(2)`
(server.go line 211): counter two, nothing confirmed or signaled, not
returned. -/
def startInit : StartState :=
  { counter := 2, udpStarted := false, udpSignaled := false,
    tcpStarted := false, tcpSignaled := false, dead := false, ret := none }

/-- Interleaved small-step semantics of `Start` and the two serve loops
spawned by `runListener` (server.go lines 210-244):
`udpConfirm`/`tcpConfirm` — the transport's `ActivateAndServe` confirms
it is actively accepting; `udpSignal`/`tcpSignal` — the loop's
`NotifyStartedFunc` runs, calling `wgStart.Done()` exactly once (guarded
by the signaled flag), only after its transport is confirmed;
`serveFatal` — a serve loop's `ActivateAndServe` returns an error and
`log.Fatale` terminates the process (server.go lines 219-222);
`startReturn` — `wgStart.Wait()` unblocks once the counter reaches zero
and `Start` returns the literal `nil` (server.go line 216). -/
inductive StartStep : StartState → StartState → Prop where
  | udpConfirm (s : StartState) :
      s.dead = false → s.udpStarted = false →
      StartStep s { s with udpStarted := true }
  | udpSignal (s : StartState) :
      s.dead = false → s.udpStarted = true → s.udpSignaled = false →
      StartStep s { s with udpSignaled := true, counter := s.counter - 1 }
  | tcpConfirm (s : StartState) :
      s.dead = false → s.tcpStarted = false →
      StartStep s { s with tcpStarted := true }
  | tcpSignal (s : StartState) :
      s.dead = false → s.tcpStarted = true → s.tcpSignaled = false →
      StartStep s { s with tcpSignaled := true, counter := s.counter - 1 }
  | serveFatal (s : StartState) :
      s.dead = false →
      StartStep s { s with dead := true }
  | startReturn (s : StartState) :
      s.dead = false → s.counter = 0 → s.ret = none →
      StartStep s { s with ret := some none }

/-- States reachable from the entry of `Start` by interleaving the
supervising thread with the two serve loops. -/
def StartReachable (s : StartState) : Prop :=
  Relation.ReflTransGen StartStep startInit s

/-- `Server.doRunListener` (server.go lines 219-222), as a function of
the result of `ds.ActivateAndServe()`: a non-nil serve error is passed to
`log.Fatale`, terminating the process; it is never returned to `Start`
or its caller.  A nil result leaves the goroutine to end silently. -/
def doRunListenerModel : Option Err → Outcome Unit
  | some e => .fatal e
  | none => .ok ()

/-- Parse every entry, in order, the way the claim describes the
success case of vanity-IP normalization: the parsed addresses in input
order, or `none` when any entry fails to parse. -/
def parseAll (parse : String → Option IP) : List String → Option (List IP)
  | [] => some []
  | t :: ts =>
    match parse t, parseAll parse ts with
    | some ip, some l => some (ip :: l)
    | _, _ => none

/-- Restatement of the specification's description of
canonical-nameserver normalization, written from the claim: split on
commas, append a trailing dot to each entry exactly when it lacks one;
the empty string yields the empty list. -/
def canonicalSpec (raw : String) : List String :=
  if raw = "" then []
  else (splitComma raw).map fun e => if hasTrailingDot e then e else e ++ "."

/-- A baseline configuration for concrete runs: every field at the zero
value except `Bind`, which holds its documented default. -/
def cfgBase : Config :=
  { Bind := ":53", PublicKey := "", PrivateKey := "", ZonePublicKey := "",
    ZonePrivateKey := "", NamecoinRPCUsername := "", NamecoinRPCPassword := "",
    NamecoinRPCAddress := "127.0.0.1:8336", NamecoinRPCCookiePath := "",
    CacheMaxEntries := 100, SelfName := "", SelfIP := "127.127.127.127",
    HTTPListenAddr := "", CanonicalSuffix := "bit", CanonicalNameservers := "",
    canonicalNameservers := [], Hostmaster := "", VanityIPs := "",
    vanityIPs := [], TplSet := "std", TplPath := "", ConfigDir := "" }

/-- An environment in which every collaborator call succeeds: every file
opens, every key file parses to a DNSKEY, every private key parses, every
address resolves and binds, and every IP-address string parses. -/
def envAllOk : Env :=
  { parseIP := fun s => some ⟨s⟩
    backendNew := .ok ()
    openFile := fun _ => .ok ()
    readRR := fun _ => .ok (RR.dnskey ⟨8⟩)
    readPrivateKey := fun _ => .ok ()
    engineNew := .ok ()
    resolveTCPAddr := fun _ => .ok ()
    listenTCP := .ok ()
    resolveUDPAddr := fun _ => .ok ()
    listenUDP := .ok ()
    webStart := fun _ => .ok () }

/-- An environment in which the KSK public-key file opens and parses as a
DNSKEY and the private-key file opens, but the private key fails to
parse. -/
def envBadPriv : Env :=
  { envAllOk with readPrivateKey := fun _ => .error "bad private key" }

/-- An environment in which everything succeeds except the UDP bind,
which fails as when the port is already taken. -/
def envUdpBindFails : Env :=
  { envAllOk with listenUDP := .error "listen udp :53: address already in use" }

/-- An environment in which no file can be opened. -/
def envOpenFails : Env :=
  { envAllOk with openFile := fun _ => .error "open failed" }

/-- An environment whose IP parser accepts everything except the literal
token `not-an-ip` (the token of the specification's own test vector). -/
def envBadToken : Env :=
  { envAllOk with parseIP := fun s => if s = "not-an-ip" then none else some ⟨s⟩ }

/-- Configuration with a KSK file pair and no ZSK file pair. -/
def cfgKskOnly : Config :=
  { cfgBase with PublicKey := "ksk.pub", PrivateKey := "ksk.priv" }

/-- Configuration with the specification's failing vanity-IP vector. -/
def cfgVanityBad : Config :=
  { cfgBase with VanityIPs := "1.2.3.4,not-an-ip" }

/-- Configuration with the specification's passing vanity-IP vector. -/
def cfgVanityOk : Config :=
  { cfgBase with VanityIPs := "1.2.3.4,::1" }

/-- Configuration with the specification's canonical-nameserver vector. -/
def cfgCanon : Config :=
  { cfgBase with CanonicalNameservers := "a.bit,b.bit" }

/-- The server `New` builds from `cfgCanon` under `envAllOk`. -/
def srvCanon : ServerModel :=
  { cfg := { cfgCanon with canonicalNameservers := ["a.bit.", "b.bit."] }
    namecoinUser := "", namecoinPass := "", namecoinServer := "127.0.0.1:8336",
    cookiePath := "", ksk := none, zsk := none }

/-- The server `New` builds from `cfgBase` under `envAllOk`: no keys, no
cookie authentication, default naming-service connection. -/
def srvBase : ServerModel :=
  { cfg := cfgBase, namecoinUser := "", namecoinPass := "",
    namecoinServer := "127.0.0.1:8336", cookiePath := "", ksk := none, zsk := none }

/-- The action trace of a fully successful `New` on `cfgCanon` (and any
configuration with empty cookie path, key paths and HTTP address). -/
def actsNetOnly : List Action :=
  [Action.resolveTCP ":53", Action.sockOpenTCP,
   Action.resolveUDP ":53", Action.sockOpenUDP]

/-- Configuration with a relative cookie path and a non-empty base
directory. -/
def cfgCookie : Config :=
  { cfgBase with ConfigDir := "/etc/ncdns", NamecoinRPCCookiePath := "cookie.txt" }

/-- Configuration with a base directory, a cookie path, and all four key
files configured with relative paths. -/
def cfgAllPaths : Config :=
  { cfgCookie with
      PublicKey := "k.pub", PrivateKey := "k.priv",
      ZonePublicKey := "z.pub", ZonePrivateKey := "z.priv" }

/-- Intermediate states of one interleaving of `Start`: UDP confirms and
signals, then TCP confirms and signals, then `Start` returns. -/
def startS1 : StartState :=
  { startInit with udpStarted := true }

/-- State after the UDP loop signals the barrier. -/
def startS2 : StartState :=
  { counter := 1, udpStarted := true, udpSignaled := true,
    tcpStarted := false, tcpSignaled := false, dead := false, ret := none }

/-- State after the TCP transport confirms. -/
def startS3 : StartState :=
  { startS2 with tcpStarted := true }

/-- State after the TCP loop signals the barrier: the counter is zero. -/
def startS4 : StartState :=
  { counter := 0, udpStarted := true, udpSignaled := true,
    tcpStarted := true, tcpSignaled := true, dead := false, ret := none }

/-- State after `Start` returns. -/
def startFinal : StartState :=
  { startS4 with ret := some none }

lemma loadKey_update (env : Env) (cfg : Config) (x : List String) (y : List IP) (fn pfn : String) :
    loadKey env { cfg with canonicalNameservers := x, vanityIPs := y } fn pfn
      = loadKey env cfg fn pfn := rfl

lemma loadOptKey_update (env : Env) (cfg : Config) (x : List String) (y : List IP) (fn pfn : String) :
    loadOptKey env { cfg with canonicalNameservers := x, vanityIPs := y } fn pfn
      = loadOptKey env cfg fn pfn := rfl

lemma loadOptKey_empty (env : Env) (cfg : Config) (pfn : String) :
    loadOptKey env cfg "" pfn = ([], Outcome.ok none) := rfl

lemma loadKey_acts (env : Env) (cfg : Config) (fn pfn : String) :
    ∀ a ∈ (loadKey env cfg fn pfn).1,
      a = Action.fileOpen (cfg.cpath fn) ∨ a = Action.fileOpen (cfg.cpath pfn) := by
  intro a ha
  simp only [loadKey] at ha
  repeat' split at ha
  all_goals simp_all

lemma loadOptKey_acts (env : Env) (cfg : Config) (fn pfn : String) :
    ∀ a ∈ (loadOptKey env cfg fn pfn).1,
      a = Action.fileOpen (cfg.cpath fn) ∨ a = Action.fileOpen (cfg.cpath pfn) := by
  intro a ha
  simp only [loadOptKey] at ha
  split at ha
  · simp_all
  · split at ha <;> exact loadKey_acts env cfg fn pfn a (by simp_all)

lemma vanityLoop_acc (parse : String → Option IP) (ts : List String) :
    ∀ acc : List IP, vanityLoop parse ts acc = (vanityLoop parse ts []).map (acc ++ ·) := by
  induction ts with
  | nil => intro acc; simp [vanityLoop, Except.map]
  | cons t ts ih =>
    intro acc
    cases hp : parse t with
    | none => simp [vanityLoop, hp, Except.map]
    | some ip =>
      simp only [vanityLoop, hp, List.nil_append]
      rw [ih (acc ++ [ip]), ih [ip]]
      cases vanityLoop parse ts [] <;> simp [Except.map]

lemma vanityLoop_ok_of_parseAll (parse : String → Option IP) :
    ∀ (ts : List String) (l : List IP), parseAll parse ts = some l →
      vanityLoop parse ts [] = Except.ok l := by
  intro ts
  induction ts with
  | nil => intro l hl; simp_all [parseAll, vanityLoop]
  | cons t ts ih =>
    intro l hl
    cases hp : parse t with
    | none => simp [parseAll, hp] at hl
    | some ip =>
      cases hm : parseAll parse ts with
      | none => simp [parseAll, hp, hm] at hl
      | some l' =>
        simp only [parseAll, hp, hm] at hl
        simp only [vanityLoop, hp, List.nil_append]
        rw [vanityLoop_acc parse ts [ip], ih l' hm]
        simp_all [Except.map]

lemma vanityLoop_error_first (parse : String → Option IP) :
    ∀ (pre : List String) (t : String) (post : List String) (acc : List IP),
      (∀ u ∈ pre, (parse u).isSome) → parse t = none →
      vanityLoop parse (pre ++ t :: post) acc = Except.error ("Couldn\x27t parse IP: " ++ t) := by
  intro pre
  induction pre with
  | nil => intro t post acc _ ht; simp [vanityLoop, ht]
  | cons u pre ih =>
    intro t post acc hpre ht
    have hu : (parse u).isSome := hpre u (by simp)
    cases hp : parse u with
    | none => simp [hp] at hu
    | some ip =>
      simp only [List.cons_append, vanityLoop, hp]
      exact ih t post (acc ++ [ip]) (fun v hv => hpre v (by simp [hv])) ht

lemma startInv_step {a b : StartState} (hab : StartStep a b)
    (hc : a.counter + (cond a.udpSignaled 1 0) + (cond a.tcpSignaled 1 0) = 2)
    (hu : a.udpSignaled = true → a.udpStarted = true)
    (ht : a.tcpSignaled = true → a.tcpStarted = true)
    (hr : ∀ r, a.ret = some r → r = none ∧ a.counter = 0) :
    b.counter + (cond b.udpSignaled 1 0) + (cond b.tcpSignaled 1 0) = 2 ∧
    (b.udpSignaled = true → b.udpStarted = true) ∧
    (b.tcpSignaled = true → b.tcpStarted = true) ∧
    (∀ r, b.ret = some r → r = none ∧ b.counter = 0) := by
  cases hab with
  | udpConfirm hd hs => exact ⟨hc, fun _ => rfl, ht, hr⟩
  | udpSignal hd h1 h2 =>
    rw [h2] at hc
    refine ⟨?_, fun _ => h1, ht, fun r hret => absurd ((hr r hret).2) ?_⟩
    · cases htc : a.tcpSignaled <;> simp [htc] at hc ⊢ <;> omega
    · cases htc : a.tcpSignaled <;> simp [htc] at hc ⊢ <;> omega
  | tcpConfirm hd hs => exact ⟨hc, hu, fun _ => rfl, hr⟩
  | tcpSignal hd h1 h2 =>
    rw [h2] at hc
    refine ⟨?_, hu, fun _ => h1, fun r hret => absurd ((hr r hret).2) ?_⟩
    · cases htu : a.udpSignaled <;> simp [htu] at hc ⊢ <;> omega
    · cases htu : a.udpSignaled <;> simp [htu] at hc ⊢ <;> omega
  | serveFatal hd => exact ⟨hc, hu, ht, hr⟩
  | startReturn hd hc0 hr0 =>
    refine ⟨hc, hu, ht, fun r hret => ?_⟩
    have h3 : r = none := by simpa using hret.symm
    exact ⟨h3, hc0⟩

lemma startInv_of_reachable (s : StartState) (h : StartReachable s) :
    s.counter + (cond s.udpSignaled 1 0) + (cond s.tcpSignaled 1 0) = 2 ∧
    (s.udpSignaled = true → s.udpStarted = true) ∧
    (s.tcpSignaled = true → s.tcpStarted = true) ∧
    (∀ r, s.ret = some r → r = none ∧ s.counter = 0) := by
  induction h with
  | refl => simp [startInit]
  | tail _ step ih =>
    exact startInv_step step ih.1 ih.2.1 ih.2.2.1 ih.2.2.2

lemma startReachable_final : StartReachable startFinal := by
  have h1 : StartStep startInit startS1 := StartStep.udpConfirm startInit rfl rfl
  have h2 : StartStep startS1 startS2 := StartStep.udpSignal startS1 rfl rfl rfl
  have h3 : StartStep startS2 startS3 := StartStep.tcpConfirm startS2 rfl rfl
  have h4 : StartStep startS3 startS4 := StartStep.tcpSignal startS3 rfl rfl rfl
  have h5 : StartStep startS4 startFinal := StartStep.startReturn startS4 rfl rfl rfl
  exact Relation.ReflTransGen.tail
    (Relation.ReflTransGen.tail
      (Relation.ReflTransGen.tail
        (Relation.ReflTransGen.tail
          (Relation.ReflTransGen.tail Relation.ReflTransGen.refl h1) h2) h3) h4) h5

lemma loadOptKey_actFor_ksk (env : Env) (cfg : Config) :
    ∀ a ∈ (loadOptKey env cfg cfg.PublicKey cfg.PrivateKey).1, actFor cfg a := by
  intro a ha
  rcases loadOptKey_acts env cfg _ _ a ha with h | h <;> subst h <;> simp [actFor]

lemma loadOptKey_actFor_zsk (env : Env) (cfg : Config) :
    ∀ a ∈ (loadOptKey env cfg cfg.ZonePublicKey cfg.ZonePrivateKey).1, actFor cfg a := by
  intro a ha
  rcases loadOptKey_acts env cfg _ _ a ha with h | h <;> subst h <;> simp [actFor]

lemma newModel_actFor (env : Env) (cfg : Config) :
    ∀ a ∈ (newModel env cfg).1, actFor cfg a := by
  intro a ha
  have hK := loadOptKey_actFor_ksk env cfg
  have hZ := loadOptKey_actFor_zsk env cfg
  simp only [newModel, loadOptKey_update] at ha
  repeat' split at ha
  all_goals
    simp only [List.mem_append, List.mem_cons, List.not_mem_nil, or_false, false_or,
      List.mem_singleton] at ha
  all_goals try (repeat' cases ha with | inl ha => ?_ | inr ha => ?_)
  all_goals first
    | (subst ha; simp [actFor])
    | (exact hK a ha)
    | (exact hZ a ha)
    | simp_all

lemma not_mem_loadOptKey_of_not_fileOpen (env : Env) (cfg : Config) (fn pfn : String)
    (a : Action) (h : isFileOpen a = false) : a ∉ (loadOptKey env cfg fn pfn).1 := by
  intro hm
  rcases loadOptKey_acts env cfg fn pfn a hm with h1 | h1 <;> subst h1 <;> simp [isFileOpen] at h

lemma loadOptKey_filter_sock (env : Env) (cfg : Config) (fn pfn : String) :
    (loadOptKey env cfg fn pfn).1.filter isSockOpen = [] := by
  rw [List.filter_eq_nil_iff]
  intro a ha
  rcases loadOptKey_acts env cfg fn pfn a ha with h | h <;> subst h <;> simp [isSockOpen]

set_option maxHeartbeats 2000000 in
lemma newModel_sock_shape_aux (env : Env) (cfg : Config) (acts : List Action)
    (o : Outcome ServerModel) (h : newModel env cfg = (acts, o)) :
    (openSockets acts = [] ∨
     openSockets acts = [Action.sockOpenTCP] ∨
     openSockets acts = [Action.sockOpenTCP, Action.sockOpenUDP]) ∧
    (Action.sockOpenTCP ∈ acts → ∀ e, env.listenTCP ≠ Except.error e) ∧
    (Action.sockOpenUDP ∈ acts → Action.sockOpenTCP ∈ acts) := by
  have hK := loadOptKey_filter_sock env cfg cfg.PublicKey cfg.PrivateKey
  have hZ := loadOptKey_filter_sock env cfg cfg.ZonePublicKey cfg.ZonePrivateKey
  have hKT := not_mem_loadOptKey_of_not_fileOpen env cfg cfg.PublicKey cfg.PrivateKey
    Action.sockOpenTCP rfl
  have hKU := not_mem_loadOptKey_of_not_fileOpen env cfg cfg.PublicKey cfg.PrivateKey
    Action.sockOpenUDP rfl
  have hZT := not_mem_loadOptKey_of_not_fileOpen env cfg cfg.ZonePublicKey cfg.ZonePrivateKey
    Action.sockOpenTCP rfl
  have hZU := not_mem_loadOptKey_of_not_fileOpen env cfg cfg.ZonePublicKey cfg.ZonePrivateKey
    Action.sockOpenUDP rfl
  simp only [newModel, loadOptKey_update] at h
  repeat' split at h
  all_goals
    injection h with h1 h2
  all_goals
    subst h1
  all_goals
    refine ⟨?_, ?_, ?_⟩
  all_goals
    simp_all [openSockets, List.filter_append, List.mem_append, isSockOpen, List.filter,
      -List.filter_eq_nil_iff]

lemma newModel_sock_shape (env : Env) (cfg : Config) :
    (openSockets (newModel env cfg).1 = [] ∨
     openSockets (newModel env cfg).1 = [Action.sockOpenTCP] ∨
     openSockets (newModel env cfg).1 = [Action.sockOpenTCP, Action.sockOpenUDP]) ∧
    (Action.sockOpenTCP ∈ (newModel env cfg).1 → ∀ e, env.listenTCP ≠ Except.error e) ∧
    (Action.sockOpenUDP ∈ (newModel env cfg).1 → Action.sockOpenTCP ∈ (newModel env cfg).1) :=
  newModel_sock_shape_aux env cfg (newModel env cfg).1 (newModel env cfg).2 rfl

lemma normCanonical_eq_spec (raw : String) :
    normCanonical raw [] = canonicalSpec raw := by
  by_cases h : raw = ""
  · subst h; rfl
  · simp only [normCanonical, canonicalSpec, h, ne_eq, not_false_iff, if_true, if_false,
      if_neg h]
    rfl

lemma newModel_no_fileOpen (env : Env) (cfg : Config)
    (hP : cfg.PublicKey = "") (hZ : cfg.ZonePublicKey = "") (p : String) :
    Action.fileOpen p ∉ (newModel env cfg).1 := by
  intro hmem
  simp only [newModel, hP, hZ, loadOptKey_empty] at hmem
  repeat' split at hmem
  all_goals simp_all [List.mem_append]

set_option maxHeartbeats 1000000 in
lemma newModel_ok (env : Env) (cfg : Config) (acts : List Action) (srv : ServerModel)
    (h : newModel env cfg = (acts, Outcome.ok srv)) :
    ∃ (vips : List IP) (kacts zacts : List Action) (ksk zsk : Option DNSKEY),
      parseVanity env.parseIP cfg.VanityIPs cfg.vanityIPs = Except.ok vips ∧
      loadOptKey env cfg cfg.PublicKey cfg.PrivateKey = (kacts, Outcome.ok ksk) ∧
      loadOptKey env cfg cfg.ZonePublicKey cfg.ZonePrivateKey = (zacts, Outcome.ok zsk) ∧
      srv = { cfg := { cfg with
                canonicalNameservers :=
                  normCanonical cfg.CanonicalNameservers cfg.canonicalNameservers,
                vanityIPs := vips }
              namecoinUser := cfg.NamecoinRPCUsername
              namecoinPass := cfg.NamecoinRPCPassword
              namecoinServer := cfg.NamecoinRPCAddress
              cookiePath := cfg.NamecoinRPCCookiePath
              ksk := ksk
              zsk := zsk } := by
  simp only [newModel, loadOptKey_update] at h
  repeat' split at h
  all_goals simp only [Prod.mk.injEq] at h
  all_goals first
    | exact Outcome.noConfusion h.2
    | (obtain ⟨h1, h2⟩ := h
       obtain h3 := Outcome.ok.inj h2
       subst h3
       exact ⟨_, _, _, _, _, by assumption, by assumption, by assumption, rfl⟩)

/-- C1: for every server constructed successfully, `Start` blocks the
calling thread until both the UDP serve loop and the TCP serve loop have
each signaled the shared readiness barrier initialized to a count of two
(each loop signaling exactly once, after its transport confirms it is
actively accepting), and `Start` returns only after both signals have
occurred: in every reachable state of the `Start` transition system in
which `Start` has returned, both loops have signaled, both transports
were confirmed first, and the barrier has reached zero. -/
theorem ncdns_C1_start_returns_only_after_both_signals
    (s : StartState) (h : StartReachable s) (hret : s.ret ≠ none) :
    s.udpSignaled = true ∧ s.tcpSignaled = true ∧
    s.udpStarted = true ∧ s.tcpStarted = true ∧ s.counter = 0 := by
  obtain ⟨hc, hu, ht, hr⟩ := startInv_of_reachable s h
  obtain ⟨r, hr0⟩ := Option.ne_none_iff_exists.mp hret
  have hcount := (hr r hr0.symm).2
  rw [hcount] at hc
  have hboth : s.udpSignaled = true ∧ s.tcpSignaled = true := by
    cases hu2 : s.udpSignaled <;> cases ht2 : s.tcpSignaled <;>
      rw [hu2, ht2] at hc <;> simp_all
  exact ⟨hboth.1, hboth.2, hu hboth.1, ht hboth.2, hcount⟩

/-- Witness for C1 at the concrete interleaving in which the UDP loop
confirms and signals, then the TCP loop confirms and signals, and then
`Start` returns. -/
theorem ncdns_C1_witness :
    startFinal.ret ≠ none ∧
    (startFinal.udpSignaled = true ∧ startFinal.tcpSignaled = true ∧
     startFinal.udpStarted = true ∧ startFinal.tcpStarted = true ∧
     startFinal.counter = 0) :=
  ⟨by decide,
   ncdns_C1_start_returns_only_after_both_signals startFinal startReachable_final (by decide)⟩

/-- C10: for every constructed server, `Start` always returns a nil
error: in every reachable state in which `Start` has returned, the
returned value is `none`, and a listener failure is passed by
`doRunListener` to the fatal logger (terminating the process) rather
than ever being returned. -/
theorem ncdns_C10_start_never_returns_error :
    (∀ (s : StartState) (r : Option Err), StartReachable s → s.ret = some r → r = none) ∧
    (∀ e : Err, doRunListenerModel (some e) = Outcome.fatal e) ∧
    doRunListenerModel none = Outcome.ok () :=
  ⟨fun s r h hret => ((startInv_of_reachable s h).2.2.2 r hret).1,
   fun _ => rfl, rfl⟩

/-- Witness for C10 at the concrete returned state of the interleaving
used for C1. -/
theorem ncdns_C10_witness :
    startFinal.ret = some none ∧ (none : Option Err) = none :=
  ⟨rfl, ncdns_C10_start_never_returns_error.1 startFinal none startReachable_final rfl⟩

/-- Counterexample to C2: in an environment where the public-key file
parses as a DNSKEY but the private key fails to parse, `loadKey` does not
return the failure to the caller; it reaches `log.Fatale`, terminating
the process (`Outcome.fatal`), contradicting the claim that the failure
is returned as a structured error and that construction never terminates
the process. -/
theorem ncdns_C2_counterexample :
    (loadKey envBadPriv cfgBase "ksk.pub" "ksk.priv").2 = Outcome.fatal "bad private key" ∧
    (loadKey envBadPriv cfgBase "ksk.pub" "ksk.priv").2 ≠ Outcome.err "bad private key" :=
  ⟨by decide, by decide⟩

/-- C2 as amended: when the public-key file parses as a DNS key record,
a failure to open (read) the private-key file is returned to the caller
as an error, but a failure to parse the private key is passed to
`log.Fatale` and terminates the process instead of being returned. -/
theorem ncdns_C2_private_key_failures (env : Env) (cfg : Config) (fn pfn : String)
    (k : DNSKEY)
    (hopen : env.openFile (cfg.cpath fn) = Except.ok ())
    (hrr : env.readRR (cfg.cpath fn) = Except.ok (RR.dnskey k)) :
    (∀ e, env.openFile (cfg.cpath pfn) = Except.error e →
      (loadKey env cfg fn pfn).2 = Outcome.err e) ∧
    (∀ e, env.openFile (cfg.cpath pfn) = Except.ok () →
      env.readPrivateKey (cfg.cpath pfn) = Except.error e →
      (loadKey env cfg fn pfn).2 = Outcome.fatal e) := by
  constructor
  · intro e h3
    simp [loadKey, hopen, hrr, h3]
  · intro e h3 h4
    simp [loadKey, hopen, hrr, h3, h4]

/-- Witness for C2 at the environment of the counterexample: the
private-key parse failure ends in process termination. -/
theorem ncdns_C2_witness :
    envBadPriv.openFile (cfgBase.cpath "ksk.pub") = Except.ok () ∧
    envBadPriv.readRR (cfgBase.cpath "ksk.pub") = Except.ok (RR.dnskey ⟨8⟩) ∧
    envBadPriv.readPrivateKey (cfgBase.cpath "ksk.priv") = Except.error "bad private key" ∧
    (loadKey envBadPriv cfgBase "ksk.pub" "ksk.priv").2 = Outcome.fatal "bad private key" :=
  ⟨rfl, rfl, rfl,
   (ncdns_C2_private_key_failures envBadPriv cfgBase "ksk.pub" "ksk.priv" ⟨8⟩ rfl rfl).2
     "bad private key" rfl rfl⟩

/-- C8: for every call to `loadKey` with a non-empty public-key path, the
operation fails with a structured error returned to the caller when the
public-key file cannot be opened, cannot be parsed as a DNS resource
record, or parses to a record that is not a DNSKEY. -/
theorem ncdns_C8_public_key_failures (env : Env) (cfg : Config) (fn pfn : String)
    (hfn : fn ≠ "") :
    (∀ e, env.openFile (cfg.cpath fn) = Except.error e →
      (loadKey env cfg fn pfn).2 = Outcome.err e) ∧
    (∀ e, env.openFile (cfg.cpath fn) = Except.ok () →
      env.readRR (cfg.cpath fn) = Except.error e →
      (loadKey env cfg fn pfn).2 = Outcome.err e) ∧
    (env.openFile (cfg.cpath fn) = Except.ok () →
      env.readRR (cfg.cpath fn) = Except.ok RR.other →
      (loadKey env cfg fn pfn).2 =
        Outcome.err "Loaded record from key file, but it wasn\x27t a DNSKEY") := by
  refine ⟨fun e h1 => ?_, fun e h1 h2 => ?_, fun h1 h2 => ?_⟩
  · simp [loadKey, h1]
  · simp [loadKey, h1, h2]
  · simp [loadKey, h1, h2]

/-- Witness for C8: a concrete environment in which the public-key file
cannot be opened; the error is returned to the caller. -/
theorem ncdns_C8_witness :
    ("ksk.pub" : String) ≠ "" ∧
    envOpenFails.openFile (cfgBase.cpath "ksk.pub") = Except.error "open failed" ∧
    (loadKey envOpenFails cfgBase "ksk.pub" "ksk.priv").2 = Outcome.err "open failed" :=
  ⟨by decide, rfl,
   (ncdns_C8_public_key_failures envOpenFails cfgBase "ksk.pub" "ksk.priv" (by decide)).1
     "open failed" rfl⟩

/-- Counterexample to C3: with every step succeeding except the UDP
bind, `New` returns an error while the already-bound TCP socket is left
open (the construction trace has bound it and nothing ever closes it),
contradicting the claim that no socket opened during a failed
construction attempt is left open. -/
theorem ncdns_C3_counterexample :
    (newModel envUdpBindFails cfgBase).2 =
      Outcome.err "listen udp :53: address already in use" ∧
    openSockets (newModel envUdpBindFails cfgBase).1 = [Action.sockOpenTCP] :=
  ⟨by decide, by decide⟩

/-- C3 as amended: when `New` returns an error, it closes no socket, so
any socket bound before the failing step remains open; sockets are bound
in order (UDP only after TCP), and failures at or before the TCP bind
leave no socket open — but a failure after a successful TCP bind (such
as the UDP bind failing) leaves the TCP socket open. -/
theorem ncdns_C3_sockets_on_failed_construction (env : Env) (cfg : Config)
    (acts : List Action) (e : Err) (h : newModel env cfg = (acts, Outcome.err e)) :
    Action.sockClose ∉ acts ∧
    (Action.sockOpenUDP ∈ acts → Action.sockOpenTCP ∈ acts) ∧
    (∀ e2, env.listenTCP = Except.error e2 → openSockets acts = []) := by
  have hshape := newModel_sock_shape env cfg
  have hact := newModel_actFor env cfg
  simp only [h] at hshape hact
  refine ⟨?_, hshape.2.2, ?_⟩
  · intro hmem
    have h2 := hact _ hmem
    simp [actFor] at h2
  · intro e2 hl
    have hTCP : Action.sockOpenTCP ∉ acts := fun hm => hshape.2.1 hm e2 hl
    rcases hshape.1 with h0 | h0 | h0
    · exact h0
    · exfalso
      apply hTCP
      have hmemf : Action.sockOpenTCP ∈ openSockets acts := by rw [h0]; simp
      exact (List.mem_filter.mp hmemf).1
    · exfalso
      apply hTCP
      have hmemf : Action.sockOpenTCP ∈ openSockets acts := by rw [h0]; simp
      exact (List.mem_filter.mp hmemf).1

/-- Witness for C3 as amended, at the environment of the counterexample:
the failing construction closed nothing and bound only the TCP socket. -/
theorem ncdns_C3_witness :
    newModel envUdpBindFails cfgBase =
      ([Action.resolveTCP ":53", Action.sockOpenTCP, Action.resolveUDP ":53"],
        Outcome.err "listen udp :53: address already in use") ∧
    (Action.sockClose ∉
        [Action.resolveTCP ":53", Action.sockOpenTCP, Action.resolveUDP ":53"] ∧
      (Action.sockOpenUDP ∈
          [Action.resolveTCP ":53", Action.sockOpenTCP, Action.resolveUDP ":53"] →
        Action.sockOpenTCP ∈
          [Action.resolveTCP ":53", Action.sockOpenTCP, Action.resolveUDP ":53"]) ∧
      (∀ e2, envUdpBindFails.listenTCP = Except.error e2 →
        openSockets [Action.resolveTCP ":53", Action.sockOpenTCP, Action.resolveUDP ":53"] = [])) :=
  ⟨by decide,
   ncdns_C3_sockets_on_failed_construction envUdpBindFails cfgBase
     [Action.resolveTCP ":53", Action.sockOpenTCP, Action.resolveUDP ":53"]
     "listen udp :53: address already in use" (by decide)⟩

/-- C4: whenever a KSK was loaded (non-empty public-key path with a
successful guarded load) and no ZSK was loaded (empty zone public-key
path), `New` fails with the configuration error stating that a ZSK is
required when a KSK is specified, and the failure occurs before any
network socket is resolved or bound: the construction trace contains no
network action. -/
theorem ncdns_C4_ksk_without_zsk (env : Env) (cfg : Config) (vips : List IP)
    (kacts : List Action) (k : DNSKEY)
    (hV : parseVanity env.parseIP cfg.VanityIPs cfg.vanityIPs = Except.ok vips)
    (hB : env.backendNew = Except.ok ())
    (hK : loadOptKey env cfg cfg.PublicKey cfg.PrivateKey = (kacts, Outcome.ok (some k)))
    (hZ : cfg.ZonePublicKey = "") :
    (newModel env cfg).2 = Outcome.err "Must specify ZSK if KSK is specified" ∧
    ∀ a ∈ (newModel env cfg).1, netAction a = false := by
  have hKacts := loadOptKey_acts env cfg cfg.PublicKey cfg.PrivateKey
  rw [hK] at hKacts
  constructor
  · simp only [newModel, loadOptKey_update, hV, hB, hK]
    simp only [hZ, loadOptKey_empty]
    simp
  · intro a ha
    simp only [newModel, loadOptKey_update, hV, hB, hK] at ha
    simp only [hZ, loadOptKey_empty] at ha
    simp only [List.append_nil] at ha
    rcases List.mem_append.mp ha with ha | ha
    · split at ha <;> simp_all [netAction]
    · rcases hKacts a ha with h1 | h1 <;> subst h1 <;> simp [netAction]

/-- Witness for C4 at a concrete configuration with a KSK pair and no
ZSK pair, in the all-succeeding environment. -/
theorem ncdns_C4_witness :
    parseVanity envAllOk.parseIP cfgKskOnly.VanityIPs cfgKskOnly.vanityIPs = Except.ok [] ∧
    loadOptKey envAllOk cfgKskOnly cfgKskOnly.PublicKey cfgKskOnly.PrivateKey =
      ([Action.fileOpen "ksk.pub", Action.fileOpen "ksk.priv"], Outcome.ok (some ⟨8⟩)) ∧
    cfgKskOnly.ZonePublicKey = "" ∧
    ((newModel envAllOk cfgKskOnly).2 = Outcome.err "Must specify ZSK if KSK is specified" ∧
     ∀ a ∈ (newModel envAllOk cfgKskOnly).1, netAction a = false) :=
  ⟨rfl, by decide, rfl,
   ncdns_C4_ksk_without_zsk envAllOk cfgKskOnly []
     [Action.fileOpen "ksk.pub", Action.fileOpen "ksk.priv"] ⟨8⟩
     rfl rfl (by decide) rfl⟩

/-- C5: vanity-IP normalization splits the raw string on commas and
parses each entry: the empty string yields the empty list; when every
entry parses, the normalized list holds the parsed addresses in input
order (and is what the constructed server carries); when an entry is
unparsable, normalization — and hence `New` — fails with a configuration
error naming the offending token. -/
theorem ncdns_C5_vanity_normalization :
    (∀ parse : String → Option IP, parseVanity parse "" [] = Except.ok []) ∧
    (∀ (parse : String → Option IP) (raw : String) (l : List IP),
      raw ≠ "" → parseAll parse (splitComma raw) = some l →
      parseVanity parse raw [] = Except.ok l) ∧
    (∀ (parse : String → Option IP) (raw : String) (pre : List String) (t : String)
        (post : List String),
      raw ≠ "" → splitComma raw = pre ++ t :: post → (∀ u ∈ pre, (parse u).isSome) →
      parse t = none →
      parseVanity parse raw [] = Except.error ("Couldn\x27t parse IP: " ++ t)) ∧
    (∀ (env : Env) (cfg : Config) (e : Err),
      parseVanity env.parseIP cfg.VanityIPs cfg.vanityIPs = Except.error e →
      (newModel env cfg).2 = Outcome.err e) ∧
    (∀ (env : Env) (cfg : Config) (acts : List Action) (srv : ServerModel),
      newModel env cfg = (acts, Outcome.ok srv) →
      parseVanity env.parseIP cfg.VanityIPs cfg.vanityIPs = Except.ok srv.cfg.vanityIPs) := by
  refine ⟨fun parse => rfl, ?_, ?_, ?_, ?_⟩
  · intro parse raw l hraw hall
    simp only [parseVanity, hraw, ne_eq, not_false_iff, if_true]
    exact vanityLoop_ok_of_parseAll parse (splitComma raw) l hall
  · intro parse raw pre t post hraw hsplit hpre ht
    simp only [parseVanity, hraw, ne_eq, not_false_iff, if_true, hsplit]
    exact vanityLoop_error_first parse pre t post [] hpre ht
  · intro env cfg e h
    simp [newModel, h]
  · intro env cfg acts srv h
    obtain ⟨vips, kacts, zacts, ksk, zsk, hV, hK, hZ, hsrv⟩ := newModel_ok env cfg acts srv h
    rw [hsrv]
    exact hV

/-- Witness for C5 on the specification's own vectors: the list
`1.2.3.4,not-an-ip` fails naming `not-an-ip`, and `1.2.3.4,::1` yields
the two parsed addresses in input order. -/
theorem ncdns_C5_witness :
    splitComma "1.2.3.4,not-an-ip" = ["1.2.3.4"] ++ "not-an-ip" :: [] ∧
    envBadToken.parseIP "not-an-ip" = none ∧
    parseVanity envBadToken.parseIP "1.2.3.4,not-an-ip" [] =
      Except.error ("Couldn\x27t parse IP: " ++ "not-an-ip") ∧
    parseVanity envAllOk.parseIP "1.2.3.4,::1" [] = Except.ok [⟨"1.2.3.4"⟩, ⟨"::1"⟩] :=
  ⟨by decide, rfl,
   ncdns_C5_vanity_normalization.2.2.1 envBadToken.parseIP "1.2.3.4,not-an-ip"
     ["1.2.3.4"] "not-an-ip" [] (by decide) (by decide) (by decide) rfl,
   ncdns_C5_vanity_normalization.2.1 envAllOk.parseIP "1.2.3.4,::1"
     [⟨"1.2.3.4"⟩, ⟨"::1"⟩] (by decide) (by decide)⟩

/-- C6: canonical-nameserver normalization splits the raw string on
commas and appends a trailing dot to each entry exactly when it lacks
one; the empty string yields the empty list; and the constructed server
carries exactly this normalized list. -/
theorem ncdns_C6_canonical_normalization :
    (∀ raw : String, normCanonical raw [] = canonicalSpec raw) ∧
    (∀ (env : Env) (cfg : Config) (acts : List Action) (srv : ServerModel),
      cfg.canonicalNameservers = [] → newModel env cfg = (acts, Outcome.ok srv) →
      srv.cfg.canonicalNameservers = canonicalSpec cfg.CanonicalNameservers) := by
  refine ⟨normCanonical_eq_spec, ?_⟩
  intro env cfg acts srv hinit h
  obtain ⟨vips, kacts, zacts, ksk, zsk, hV, hK, hZ, hsrv⟩ := newModel_ok env cfg acts srv h
  rw [hsrv]
  show normCanonical cfg.CanonicalNameservers cfg.canonicalNameservers =
    canonicalSpec cfg.CanonicalNameservers
  rw [hinit]
  exact normCanonical_eq_spec cfg.CanonicalNameservers

/-- Witness for C6 on the specification's vector `a.bit,b.bit`. -/
theorem ncdns_C6_witness :
    cfgCanon.canonicalNameservers = [] ∧
    newModel envAllOk cfgCanon = (actsNetOnly, Outcome.ok srvCanon) ∧
    srvCanon.cfg.canonicalNameservers = canonicalSpec "a.bit,b.bit" ∧
    canonicalSpec "a.bit,b.bit" = ["a.bit.", "b.bit."] :=
  ⟨rfl, by decide,
   ncdns_C6_canonical_normalization.2 envAllOk cfgCanon actsNetOnly srvCanon rfl (by decide),
   by decide⟩

/-- C7: an empty public-key path makes the corresponding key load a
no-op — the guarded load performs no action (opens no file) and yields
an absent key — independently for the KSK and the ZSK; when both paths
are empty no file is opened at all during construction. -/
theorem ncdns_C7_empty_key_path_noop :
    (∀ (env : Env) (cfg : Config) (priv : String),
      loadOptKey env cfg "" priv = ([], Outcome.ok none)) ∧
    (∀ (env : Env) (cfg : Config) (acts : List Action) (srv : ServerModel),
      cfg.PublicKey = "" → newModel env cfg = (acts, Outcome.ok srv) → srv.ksk = none) ∧
    (∀ (env : Env) (cfg : Config) (acts : List Action) (srv : ServerModel),
      cfg.ZonePublicKey = "" → newModel env cfg = (acts, Outcome.ok srv) → srv.zsk = none) ∧
    (∀ (env : Env) (cfg : Config) (p : String),
      cfg.PublicKey = "" → cfg.ZonePublicKey = "" →
      Action.fileOpen p ∉ (newModel env cfg).1) := by
  refine ⟨fun env cfg priv => loadOptKey_empty env cfg priv, ?_, ?_,
    fun env cfg p hP hZ => newModel_no_fileOpen env cfg hP hZ p⟩
  · intro env cfg acts srv hP h
    obtain ⟨vips, kacts, zacts, ksk, zsk, hV, hK, hZ, hsrv⟩ := newModel_ok env cfg acts srv h
    rw [hP, loadOptKey_empty] at hK
    have hksk : ksk = none := (Outcome.ok.inj (Prod.mk.inj hK).2).symm
    rw [hsrv]
    exact hksk
  · intro env cfg acts srv hP h
    obtain ⟨vips, kacts, zacts, ksk, zsk, hV, hK, hZ, hsrv⟩ := newModel_ok env cfg acts srv h
    rw [hP, loadOptKey_empty] at hZ
    have hzsk : zsk = none := (Outcome.ok.inj (Prod.mk.inj hZ).2).symm
    rw [hsrv]
    exact hzsk

/-- Witness for C7 at the baseline configuration (both key paths empty)
in the all-succeeding environment: keys absent and no file opened. -/
theorem ncdns_C7_witness :
    cfgBase.PublicKey = "" ∧ cfgBase.ZonePublicKey = "" ∧
    newModel envAllOk cfgBase = (actsNetOnly, Outcome.ok srvBase) ∧
    srvBase.ksk = none ∧ srvBase.zsk = none ∧
    Action.fileOpen "ksk.pub" ∉ (newModel envAllOk cfgBase).1 :=
  ⟨rfl, rfl, by decide,
   ncdns_C7_empty_key_path_noop.2.1 envAllOk cfgBase actsNetOnly srvBase rfl (by decide),
   ncdns_C7_empty_key_path_noop.2.2.1 envAllOk cfgBase actsNetOnly srvBase rfl (by decide),
   ncdns_C7_empty_key_path_noop.2.2.2 envAllOk cfgBase "ksk.pub" rfl rfl⟩

/-- Counterexample to C9: with base directory `/etc/ncdns` and cookie
path `cookie.txt`, `New` hands the cookie retriever the configured
relative path as-is; the `ConfigDir`-resolved form is never handed over,
contradicting the claim that the cookie-file path is resolved against
the base directory before being handed to a collaborator. -/
theorem ncdns_C9_counterexample :
    Action.cookieHand "cookie.txt" ∈ (newModel envAllOk cfgCookie).1 ∧
    cfgCookie.cpath "cookie.txt" = "/etc/ncdns/cookie.txt" ∧
    Action.cookieHand "/etc/ncdns/cookie.txt" ∉ (newModel envAllOk cfgCookie).1 :=
  ⟨by decide, by decide, by decide⟩

/-- C9 as amended: the four key file paths are resolved against
`ConfigDir` via `cpath` before the files are opened, but the
naming-service cookie-file path is handed to the cookie retriever
exactly as configured, unresolved. -/
theorem ncdns_C9_path_resolution (env : Env) (cfg : Config) (p : String) :
    (Action.fileOpen p ∈ (newModel env cfg).1 →
      p = cfg.cpath cfg.PublicKey ∨ p = cfg.cpath cfg.PrivateKey ∨
      p = cfg.cpath cfg.ZonePublicKey ∨ p = cfg.cpath cfg.ZonePrivateKey) ∧
    (Action.cookieHand p ∈ (newModel env cfg).1 → p = cfg.NamecoinRPCCookiePath) := by
  constructor
  · intro h
    have h2 := newModel_actFor env cfg _ h
    simpa [actFor] using h2
  · intro h
    have h2 := newModel_actFor env cfg _ h
    simpa [actFor] using h2

/-- Witness for C9 as amended: on a configuration with all four key
files and a cookie path, a concrete file open uses the resolved path,
and the cookie handoff carries the configured path. -/
theorem ncdns_C9_witness :
    Action.fileOpen "/etc/ncdns/k.pub" ∈ (newModel envAllOk cfgAllPaths).1 ∧
    ("/etc/ncdns/k.pub" = cfgAllPaths.cpath cfgAllPaths.PublicKey ∨
     "/etc/ncdns/k.pub" = cfgAllPaths.cpath cfgAllPaths.PrivateKey ∨
     "/etc/ncdns/k.pub" = cfgAllPaths.cpath cfgAllPaths.ZonePublicKey ∨
     "/etc/ncdns/k.pub" = cfgAllPaths.cpath cfgAllPaths.ZonePrivateKey) ∧
    (Action.cookieHand "cookie.txt" ∈ (newModel envAllOk cfgAllPaths).1 →
      "cookie.txt" = cfgAllPaths.NamecoinRPCCookiePath) :=
  ⟨by decide,
   (ncdns_C9_path_resolution envAllOk cfgAllPaths "/etc/ncdns/k.pub").1 (by decide),
   (ncdns_C9_path_resolution envAllOk cfgAllPaths "cookie.txt").2⟩

end Ncdns
